import Mathlib

/-!
Shallow embedding of `djblets/conditions/conditions.py`: the `Condition` and
`ConditionSet` classes, their construction, deserialization, matching and
serialization logic, together with the external collaborator contracts
(choice registry, per-choice operator registry, per-operator value field).

Python values are modelled by the inductive `PyVal` (with `PyVal.none` playing
the role of Python's `None` singleton); fallible Python code is modelled with
`Except`; exceptions of the `djblets.conditions.errors` module are modelled by
the inductive `ConditionError`.
-/

/-- A JSON-compatible Python value; `PyVal.none` models Python's `None`. -/
inductive PyVal where
  | none
  | bool (b : Bool)
  | int (n : Int)
  | str (s : String)
  deriving DecidableEq, Repr

/-- Modelled from the spec: the exception classes of
`djblets.conditions.errors` (not under `src/`), as pure data carrying the
fields that `conditions.py` passes to them (`message`, the offending
identifier, `condition_index`). `keyError` models Python's built-in
`KeyError`; `assertionError` models a failed `assert`. -/
inductive ConditionError where
  | choiceNotFound (message : String) (choice_id : Option String)
      (condition_index : Option Nat)
  | operatorNotFound (message : String) (operator_id : Option String)
      (condition_index : Option Nat)
  | invalidValue (message : String) (condition_index : Option Nat)
  | invalidMode (message : String)
  | keyError
  | assertionError
  deriving DecidableEq, Repr

/-- The `condition_index` attribute carried by a condition error
(`Option.none` for error kinds that have no such attribute). -/
def ConditionError.conditionIndex : ConditionError → Option Nat
  | ConditionError.choiceNotFound _ _ i => i
  | ConditionError.operatorNotFound _ _ i => i
  | ConditionError.invalidValue _ i => i
  | _ => Option.none

def ConditionError.isChoiceNotFound : ConditionError → Bool
  | ConditionError.choiceNotFound _ _ _ => true
  | _ => false

def ConditionError.isOperatorNotFound : ConditionError → Bool
  | ConditionError.operatorNotFound _ _ _ => true
  | _ => false

def ConditionError.isInvalidValue : ConditionError → Bool
  | ConditionError.invalidValue _ _ => true
  | _ => false

def ConditionError.isInvalidMode : ConditionError → Bool
  | ConditionError.invalidMode _ => true
  | _ => false

/-- The value-field collaborator (`operator.value_field`): deserializes a raw
value into a typed value, possibly failing, and serializes back. -/
structure ValueField where
  deserialize_value : PyVal → Except ConditionError PyVal
  serialize_value : PyVal → PyVal

/-- The operator collaborator: a stable id, an optional value field, and the
comparison function. -/
structure Operator where
  operator_id : String
  value_field : Option ValueField
  matchesVal : PyVal → PyVal → Bool

/-- The choice collaborator: a stable id, a per-choice operator registry
(`get_operator`), and the match-value extraction function. -/
structure Choice where
  choice_id : String
  get_operator : String → Except ConditionError Operator
  get_match_value : PyVal → PyVal

/-- The choice registry collaborator (`ConditionChoices`). -/
structure Choices where
  get_choice : String → Except ConditionError Choice

/-- `Condition`: one choice/operator/value/raw_value quadruple. -/
structure Condition where
  choice : Choice
  operator : Operator
  value : PyVal
  raw_value : PyVal

/-- `Condition.__init__(choice, operator, value=None, raw_value=None)`:
stores the fields; when `raw_value is None` it is set equal to `value`. -/
def Condition.init (choice : Choice) (operator : Operator)
    (value raw_value : PyVal) : Condition :=
  ⟨choice, operator, value,
   if raw_value = PyVal.none then value else raw_value⟩

/-- The serialized payload fragment for one condition: the `"choice"`, `"op"`
and `"value"` keys of the dict, each possibly absent. -/
structure CondData where
  choice : Option String
  op : Option String
  value : Option PyVal
  deriving Repr

/-- `Condition.deserialize(choices, data, condition_index)`: reads the
`"choice"` and `"op"` keys, resolves the choice then the operator, then (when
the operator has a value field) reads and deserializes the `"value"` key,
short-circuiting on the first failure. Handlers that catch a specific Python
exception class are modelled by matching the corresponding error constructor
and propagating every other error unchanged. -/
def Condition.deserialize (choices : Choices) (data : CondData)
    (condition_index : Option Nat) : Except ConditionError Condition :=
  match data.choice with
  | Option.none =>
      Except.error (ConditionError.choiceNotFound "A choice is required."
        Option.none condition_index)
  | Option.some choice_id =>
    match data.op with
    | Option.none =>
        Except.error (ConditionError.operatorNotFound "An operator is required."
          Option.none condition_index)
    | Option.some operator_id =>
      match choices.get_choice choice_id with
      | Except.error (ConditionError.choiceNotFound msg _ _) =>
          Except.error (ConditionError.choiceNotFound msg
            (Option.some choice_id) condition_index)
      | Except.error e => Except.error e
      | Except.ok choice =>
        match choice.get_operator operator_id with
        | Except.error (ConditionError.operatorNotFound msg _ _) =>
            Except.error (ConditionError.operatorNotFound msg
              (Option.some operator_id) condition_index)
        | Except.error e => Except.error e
        | Except.ok operator =>
          match operator.value_field with
          | Option.none =>
              Except.ok (Condition.init choice operator PyVal.none PyVal.none)
          | Option.some vf =>
            match data.value with
            | Option.none =>
                Except.error (ConditionError.invalidValue "A value is required."
                  condition_index)
            | Option.some raw_value =>
              match vf.deserialize_value raw_value with
              | Except.error ConditionError.keyError =>
                  Except.error (ConditionError.invalidValue
                    "A value is required." condition_index)
              | Except.error (ConditionError.invalidValue msg _) =>
                  Except.error (ConditionError.invalidValue msg condition_index)
              | Except.error e => Except.error e
              | Except.ok value =>
                  Except.ok (Condition.init choice operator value raw_value)

/-- `Condition.matches(value)` (`matches` is a Lean keyword, hence
`matchesVal`): extract via the choice, compare via the operator. -/
def Condition.matchesVal (c : Condition) (value : PyVal) : Bool :=
  c.operator.matchesVal (c.choice.get_match_value value) c.value

/-- `Condition.serialize()`: always emits `"choice"` and `"op"`; emits
`"value"` exactly when the operator has a value field, serialized through the
field unless the stored value is `None`. -/
def Condition.serialize (c : Condition) : CondData :=
  ⟨Option.some c.choice.choice_id,
   Option.some c.operator.operator_id,
   match c.operator.value_field with
   | Option.none => Option.none
   | Option.some vf =>
       Option.some (if c.value = PyVal.none then PyVal.none
                    else vf.serialize_value c.value)⟩

/-- `ConditionSet`: a match mode and an ordered list of conditions. -/
structure ConditionSet where
  mode : String
  conditions : List Condition

def ConditionSet.MODE_ALL : String := "all"

def ConditionSet.MODE_ANY : String := "any"

/-- The message of `InvalidConditionModeError`:
`'"%s" is not a valid condition mode.' % mode`. -/
def modeErrorMessage (mode : String) : String :=
  "\"" ++ mode ++ "\" is not a valid condition mode."

/-- `ConditionSet.__init__(mode, conditions)`: validates the mode, then stores
both fields as given. -/
def ConditionSet.init (mode : String) (conditions : List Condition) :
    Except ConditionError ConditionSet :=
  if mode = ConditionSet.MODE_ALL ∨ mode = ConditionSet.MODE_ANY then
    Except.ok ⟨mode, conditions⟩
  else
    Except.error (ConditionError.invalidMode (modeErrorMessage mode))

/-- The serialized payload for a condition set: the `"mode"` and
`"conditions"` keys, each possibly absent. -/
structure CondSetData where
  mode : Option String
  conditions : Option (List CondData)
  deriving Repr

/-- The list comprehension in `ConditionSet.deserialize`: deserialize each
element in order, passing its index, stopping at the first failure.
`i` is the index of the first element of `l`. -/
def deserializeConditions (choices : Choices) (l : List CondData) (i : Nat) :
    Except ConditionError (List Condition) :=
  match l with
  | [] => Except.ok []
  | d :: rest =>
    match Condition.deserialize choices d (Option.some i) with
    | Except.error e => Except.error e
    | Except.ok c =>
      match deserializeConditions choices rest (i + 1) with
      | Except.error e => Except.error e
      | Except.ok cs => Except.ok (c :: cs)

/-- `ConditionSet.deserialize(choices, data)`: reads `"mode"` (absent →
`None`, whose `str()` is `"None"`), validates it, deserializes the
`"conditions"` list (absent → `[]`) element by element, and constructs the
set through `ConditionSet.__init__`. -/
def ConditionSet.deserialize (choices : Choices) (data : CondSetData) :
    Except ConditionError ConditionSet :=
  match data.mode with
  | Option.some m =>
      if m = ConditionSet.MODE_ALL ∨ m = ConditionSet.MODE_ANY then
        match deserializeConditions choices (data.conditions.getD []) 0 with
        | Except.error e => Except.error e
        | Except.ok conds => ConditionSet.init m conds
      else
        Except.error (ConditionError.invalidMode (modeErrorMessage m))
  | Option.none =>
      Except.error (ConditionError.invalidMode (modeErrorMessage "None"))

/-- `ConditionSet.matches(value)`: `all` or `any` over the member conditions
according to the mode; any other stored mode hits `assert False`. -/
def ConditionSet.matchesVal (cs : ConditionSet) (value : PyVal) :
    Except ConditionError Bool :=
  if cs.mode = ConditionSet.MODE_ALL then
    Except.ok (cs.conditions.all (fun c => c.matchesVal value))
  else if cs.mode = ConditionSet.MODE_ANY then
    Except.ok (cs.conditions.any (fun c => c.matchesVal value))
  else
    Except.error ConditionError.assertionError

/-- `ConditionSet.serialize()`. -/
def ConditionSet.serialize (cs : ConditionSet) : CondSetData :=
  ⟨Option.some cs.mode,
   Option.some (cs.conditions.map Condition.serialize)⟩

/-!
A concrete choice registry, mirroring the spec's example scenario (a "status"
choice with an enum-valued "is" operator and a value-less "is-empty"
operator), used to evaluate the theorems below at concrete inputs.
-/

/-- A concrete value field: an enum over the strings "open" and "closed". -/
def statusValueField : ValueField :=
  ⟨fun r =>
     if r = PyVal.str "open" ∨ r = PyVal.str "closed" then Except.ok r
     else Except.error (ConditionError.invalidValue "Invalid enum value."
       Option.none),
   fun v => v⟩

/-- A concrete operator with a value field. -/
def isOperator : Operator :=
  ⟨"is", Option.some statusValueField, fun x v => decide (x = v)⟩

/-- A concrete operator without a value field. -/
def isEmptyOperator : Operator :=
  ⟨"is-empty", Option.none, fun x _ => decide (x = PyVal.none)⟩

/-- A value field whose deserializer raises `KeyError` on every input; used
to exercise the `except KeyError` handler around the deserializer call. -/
def keyErrorValueField : ValueField :=
  ⟨fun _ => Except.error ConditionError.keyError, fun v => v⟩

/-- A concrete operator whose value field raises `KeyError`. -/
def keyErrorOperator : Operator :=
  ⟨"key-error-op", Option.some keyErrorValueField, fun _ _ => true⟩

/-- A concrete choice exposing the three operators above. -/
def statusChoice : Choice :=
  ⟨"status",
   fun opid =>
     if opid = "is" then Except.ok isOperator
     else if opid = "is-empty" then Except.ok isEmptyOperator
     else if opid = "key-error-op" then Except.ok keyErrorOperator
     else Except.error (ConditionError.operatorNotFound "No such operator."
       Option.none Option.none),
   fun v => v⟩

/-- A concrete choice registry with the single choice "status". -/
def demoChoices : Choices :=
  ⟨fun cid =>
     if cid = "status" then Except.ok statusChoice
     else Except.error (ConditionError.choiceNotFound "No such choice."
       Option.none Option.none)⟩

/-- A concrete condition over the demo registry. -/
def demoCondition : Condition :=
  Condition.init statusChoice isOperator (PyVal.str "open") PyVal.none

/-- A condition is validly constructed against a registry when the registry
resolves its stored ids back to its own choice and operator objects, and —
when the operator has a value field — the serialized form of its value
deserializes back to that value; when the operator has no value field, its
value is unset, per the data-model invariant. -/
def Condition.roundTripOk (choices : Choices) (c : Condition) : Prop :=
  choices.get_choice c.choice.choice_id = Except.ok c.choice ∧
  c.choice.get_operator c.operator.operator_id = Except.ok c.operator ∧
  (match c.operator.value_field with
   | Option.none => c.value = PyVal.none
   | Option.some vf =>
       vf.deserialize_value (if c.value = PyVal.none then PyVal.none
         else vf.serialize_value c.value) = Except.ok c.value)

/-- The collaborator contracts of the external interfaces: the choice
registry fails only with `ChoiceNotFound`; a resolved choice's operator
registry fails only with `OperatorNotFound`; a resolved operator's value
field fails only with `KeyError` or `InvalidValue`. -/
def Choices.contractOk (choices : Choices) : Prop :=
  (∀ s e, choices.get_choice s = Except.error e →
    e.isChoiceNotFound = true) ∧
  (∀ s c, choices.get_choice s = Except.ok c →
    (∀ t e, c.get_operator t = Except.error e →
      e.isOperatorNotFound = true) ∧
    (∀ t op, c.get_operator t = Except.ok op →
      ∀ vf, op.value_field = Option.some vf →
        ∀ r e, vf.deserialize_value r = Except.error e →
          (e = ConditionError.keyError ∨ e.isInvalidValue = true)))

/-- A heap of Python list objects: a reference is an allocation index. Used
to model object identity and in-place mutation of `conditions` lists. -/
structure ListHeap where
  store : Nat → List Condition
  next : Nat

/-- Allocate a fresh list object. -/
def ListHeap.alloc (h : ListHeap) (v : List Condition) : ListHeap × Nat :=
  (⟨fun r => if r = h.next then v else h.store r, h.next + 1⟩, h.next)

/-- Read the list held by a reference. -/
def ListHeap.read (h : ListHeap) (r : Nat) : List Condition :=
  h.store r

/-- `lst.append(c)` on the list object behind a reference. -/
def ListHeap.append (h : ListHeap) (r : Nat) (c : Condition) : ListHeap :=
  ⟨fun x => if x = r then h.store r ++ [c] else h.store x, h.next⟩

/-- A `ConditionSet` object whose `conditions` attribute is a reference to a
heap-allocated Python list. -/
structure ConditionSetObj where
  mode : String
  conditionsRef : Nat

/-- `ConditionSet(mode)` with the `conditions` argument omitted: Python
evaluates the `conditions=[]` default expression once, at function
definition time, so every such call receives the same list object
`defaultRef`; `__init__` validates the mode and stores that reference as
given, without copying. -/
def ConditionSet.initDefault (defaultRef : Nat) (mode : String) :
    Except ConditionError ConditionSetObj :=
  if mode = ConditionSet.MODE_ALL ∨ mode = ConditionSet.MODE_ANY then
    Except.ok ⟨mode, defaultRef⟩
  else
    Except.error (ConditionError.invalidMode (modeErrorMessage mode))

/-- Claim C1: for a condition set with mode "all", `matches` returns `True`
iff every member condition's `matches` returns `True`, and returns `True` on
an empty condition list; for mode "any", `matches` returns `True` iff at
least one member condition's `matches` returns `True`, and returns `False`
on an empty list. -/
theorem conditionSet_matchesVal_mode_semantics (cs : ConditionSet) (v : PyVal) :
    (cs.mode = ConditionSet.MODE_ALL →
      ((cs.matchesVal v = Except.ok true ↔
        ∀ c ∈ cs.conditions, c.matchesVal v = true) ∧
       (cs.conditions = [] → cs.matchesVal v = Except.ok true))) ∧
    (cs.mode = ConditionSet.MODE_ANY →
      ((cs.matchesVal v = Except.ok true ↔
        ∃ c ∈ cs.conditions, c.matchesVal v = true) ∧
       (cs.conditions = [] → cs.matchesVal v = Except.ok false))) := by
  constructor
  · intro h
    constructor
    · simp [ConditionSet.matchesVal, h, List.all_eq_true]
    · intro he
      simp [ConditionSet.matchesVal, h, he]
  · intro h
    constructor
    · simp [ConditionSet.matchesVal, h, ConditionSet.MODE_ALL,
        ConditionSet.MODE_ANY, List.any_eq_true]
    · intro he
      simp [ConditionSet.matchesVal, h, he, ConditionSet.MODE_ALL,
        ConditionSet.MODE_ANY]

/-- Witness for C1 at concrete empty condition sets of both modes. -/
theorem conditionSet_matchesVal_mode_semantics_witness :
    (ConditionSet.mk "all" []).matchesVal PyVal.none = Except.ok true ∧
    (ConditionSet.mk "any" []).matchesVal PyVal.none = Except.ok false :=
  ⟨((conditionSet_matchesVal_mode_semantics (ConditionSet.mk "all" [])
      PyVal.none).1 rfl).2 rfl,
   ((conditionSet_matchesVal_mode_semantics (ConditionSet.mk "any" [])
      PyVal.none).2 rfl).2 rfl⟩

/-- Claim C3: `Condition.deserialize` checks in strict order: a missing
`"choice"` key raises `ChoiceNotFound` before `"op"` or `"value"` is
inspected; then a missing `"op"` key raises `OperatorNotFound`; then an
unresolvable choice id raises `ChoiceNotFound` carrying that id without
attempting operator resolution; then an unresolvable operator id raises
`OperatorNotFound` carrying that id; only then is the value examined. Each
part of the conjunction leaves every later payload key unconstrained, which
is exactly the short-circuiting property. -/
theorem condition_deserialize_error_order (choices : Choices) (data : CondData)
    (idx : Option Nat) :
    (data.choice = Option.none →
      Condition.deserialize choices data idx =
        Except.error (ConditionError.choiceNotFound "A choice is required."
          Option.none idx)) ∧
    (∀ cid, data.choice = Option.some cid → data.op = Option.none →
      Condition.deserialize choices data idx =
        Except.error (ConditionError.operatorNotFound "An operator is required."
          Option.none idx)) ∧
    (∀ cid opid msg a b, data.choice = Option.some cid →
      data.op = Option.some opid →
      choices.get_choice cid =
        Except.error (ConditionError.choiceNotFound msg a b) →
      Condition.deserialize choices data idx =
        Except.error (ConditionError.choiceNotFound msg
          (Option.some cid) idx)) ∧
    (∀ cid opid choice msg a b, data.choice = Option.some cid →
      data.op = Option.some opid →
      choices.get_choice cid = Except.ok choice →
      choice.get_operator opid =
        Except.error (ConditionError.operatorNotFound msg a b) →
      Condition.deserialize choices data idx =
        Except.error (ConditionError.operatorNotFound msg
          (Option.some opid) idx)) := by
  refine ⟨?_, ?_, ?_, ?_⟩
  · intro h
    simp [Condition.deserialize, h]
  · intro cid h1 h2
    simp [Condition.deserialize, h1, h2]
  · intro cid opid msg a b h1 h2 h3
    simp [Condition.deserialize, h1, h2, h3]
  · intro cid opid choice msg a b h1 h2 h3 h4
    simp [Condition.deserialize, h1, h2, h3, h4]

/-- Witness for C3: the four error stages evaluated on concrete payloads
against the demo registry. -/
theorem condition_deserialize_error_order_witness :
    Condition.deserialize demoChoices
      ⟨Option.none, Option.some "is", Option.some (PyVal.str "open")⟩
      (Option.some 0) =
      Except.error (ConditionError.choiceNotFound "A choice is required."
        Option.none (Option.some 0)) ∧
    Condition.deserialize demoChoices
      ⟨Option.some "status", Option.none, Option.some (PyVal.str "open")⟩
      (Option.some 0) =
      Except.error (ConditionError.operatorNotFound "An operator is required."
        Option.none (Option.some 0)) ∧
    Condition.deserialize demoChoices
      ⟨Option.some "bogus", Option.some "is", Option.none⟩ Option.none =
      Except.error (ConditionError.choiceNotFound "No such choice."
        (Option.some "bogus") Option.none) ∧
    Condition.deserialize demoChoices
      ⟨Option.some "status", Option.some "bogus", Option.none⟩ Option.none =
      Except.error (ConditionError.operatorNotFound "No such operator."
        (Option.some "bogus") Option.none) :=
  ⟨(condition_deserialize_error_order demoChoices
      ⟨Option.none, Option.some "is", Option.some (PyVal.str "open")⟩
      (Option.some 0)).1 rfl,
   (condition_deserialize_error_order demoChoices
      ⟨Option.some "status", Option.none, Option.some (PyVal.str "open")⟩
      (Option.some 0)).2.1 "status" rfl rfl,
   (condition_deserialize_error_order demoChoices
      ⟨Option.some "bogus", Option.some "is", Option.none⟩
      Option.none).2.2.1 "bogus" "is" "No such choice." Option.none Option.none
      rfl rfl rfl,
   (condition_deserialize_error_order demoChoices
      ⟨Option.some "status", Option.some "bogus", Option.none⟩
      Option.none).2.2.2 "status" "bogus" statusChoice "No such operator."
      Option.none Option.none rfl rfl rfl rfl⟩

/-- Claim C4: when the resolved operator has a value field, an entirely
absent `"value"` key raises `InvalidValue` with message "A value is
required." carrying `condition_index`; when the key is present (even with a
`null` value) the raw value is passed to the value field's
`deserialize_value`, and the outcome follows that field's result (success
yields the condition; an `InvalidValue` failure is re-raised with
`condition_index` stamped on). -/
theorem condition_deserialize_value_required (choices : Choices)
    (data : CondData) (idx : Option Nat) (cid opid : String) (choice : Choice)
    (op : Operator) (vf : ValueField)
    (hcid : data.choice = Option.some cid) (hopid : data.op = Option.some opid)
    (hchoice : choices.get_choice cid = Except.ok choice)
    (hop : choice.get_operator opid = Except.ok op)
    (hvf : op.value_field = Option.some vf) :
    (data.value = Option.none →
      Condition.deserialize choices data idx =
        Except.error (ConditionError.invalidValue "A value is required."
          idx)) ∧
    (∀ raw v, data.value = Option.some raw →
      vf.deserialize_value raw = Except.ok v →
      Condition.deserialize choices data idx =
        Except.ok (Condition.init choice op v raw)) ∧
    (∀ raw msg j, data.value = Option.some raw →
      vf.deserialize_value raw =
        Except.error (ConditionError.invalidValue msg j) →
      Condition.deserialize choices data idx =
        Except.error (ConditionError.invalidValue msg idx)) := by
  refine ⟨?_, ?_, ?_⟩
  · intro h
    simp [Condition.deserialize, hcid, hopid, hchoice, hop, hvf, h]
  · intro raw v h1 h2
    simp [Condition.deserialize, hcid, hopid, hchoice, hop, hvf, h1, h2]
  · intro raw msg j h1 h2
    simp [Condition.deserialize, hcid, hopid, hchoice, hop, hvf, h1, h2]

/-- Witness for C4: missing `"value"` key, `"value": null` handed to the
enum field (rejected by the field itself), and a valid `"value"`. -/
theorem condition_deserialize_value_required_witness :
    Condition.deserialize demoChoices
      ⟨Option.some "status", Option.some "is", Option.none⟩ (Option.some 2) =
      Except.error (ConditionError.invalidValue "A value is required."
        (Option.some 2)) ∧
    Condition.deserialize demoChoices
      ⟨Option.some "status", Option.some "is", Option.some PyVal.none⟩
      (Option.some 2) =
      Except.error (ConditionError.invalidValue "Invalid enum value."
        (Option.some 2)) ∧
    Condition.deserialize demoChoices
      ⟨Option.some "status", Option.some "is",
        Option.some (PyVal.str "open")⟩ (Option.some 2) =
      Except.ok (Condition.init statusChoice isOperator (PyVal.str "open")
        (PyVal.str "open")) :=
  ⟨(condition_deserialize_value_required demoChoices
      ⟨Option.some "status", Option.some "is", Option.none⟩ (Option.some 2)
      "status" "is" statusChoice isOperator statusValueField
      rfl rfl rfl rfl rfl).1 rfl,
   (condition_deserialize_value_required demoChoices
      ⟨Option.some "status", Option.some "is", Option.some PyVal.none⟩
      (Option.some 2) "status" "is" statusChoice isOperator statusValueField
      rfl rfl rfl rfl rfl).2.2 PyVal.none "Invalid enum value." Option.none
      rfl rfl,
   (condition_deserialize_value_required demoChoices
      ⟨Option.some "status", Option.some "is",
        Option.some (PyVal.str "open")⟩ (Option.some 2)
      "status" "is" statusChoice isOperator statusValueField
      rfl rfl rfl rfl rfl).2.1 (PyVal.str "open") (PyVal.str "open")
      rfl rfl⟩

/-- Claim C7: when the resolved operator has no value field,
`Condition.deserialize` ignores any `"value"` key entirely (the payload's
`value` key is left unconstrained here) and never raises `InvalidValue`: the
result has both `value` and `raw_value` unset (`None`), and serializing that
condition emits only the `"choice"` and `"op"` keys, with no `"value"`
key. -/
theorem condition_deserialize_no_value_field (choices : Choices)
    (data : CondData) (idx : Option Nat) (cid opid : String) (choice : Choice)
    (op : Operator)
    (hcid : data.choice = Option.some cid) (hopid : data.op = Option.some opid)
    (hchoice : choices.get_choice cid = Except.ok choice)
    (hop : choice.get_operator opid = Except.ok op)
    (hvf : op.value_field = Option.none) :
    Condition.deserialize choices data idx =
      Except.ok (Condition.mk choice op PyVal.none PyVal.none) ∧
    Condition.serialize (Condition.mk choice op PyVal.none PyVal.none) =
      ⟨Option.some choice.choice_id, Option.some op.operator_id,
        Option.none⟩ := by
  constructor
  · simp [Condition.deserialize, hcid, hopid, hchoice, hop, hvf,
      Condition.init]
  · simp [Condition.serialize, hvf]

/-- Witness for C7: a payload for the value-less "is-empty" operator whose
stray `"value"` key is ignored. -/
theorem condition_deserialize_no_value_field_witness :
    Condition.deserialize demoChoices
      ⟨Option.some "status", Option.some "is-empty",
        Option.some (PyVal.str "stray")⟩ (Option.some 0) =
      Except.ok (Condition.mk statusChoice isEmptyOperator PyVal.none
        PyVal.none) ∧
    Condition.serialize (Condition.mk statusChoice isEmptyOperator PyVal.none
        PyVal.none) =
      ⟨Option.some statusChoice.choice_id,
        Option.some isEmptyOperator.operator_id, Option.none⟩ :=
  condition_deserialize_no_value_field demoChoices
    ⟨Option.some "status", Option.some "is-empty",
      Option.some (PyVal.str "stray")⟩ (Option.some 0)
    "status" "is-empty" statusChoice isEmptyOperator rfl rfl rfl rfl rfl

/-- Claim C8: `Condition.__init__` with no `raw_value` supplied (Python
passes the default `None`) stores `raw_value` equal to `value`; when a
(non-`None`) `raw_value` is supplied, the stored `raw_value` is exactly the
supplied one. Supplying `raw_value=None` explicitly is indistinguishable in
Python from omitting the argument, so "supplied" is formalized as a
non-`None` argument. -/
theorem condition_init_raw_value_default (choice : Choice) (op : Operator)
    (v rv : PyVal) :
    ((Condition.init choice op v PyVal.none).value = v ∧
     (Condition.init choice op v PyVal.none).raw_value = v) ∧
    (rv ≠ PyVal.none →
      ((Condition.init choice op v rv).value = v ∧
       (Condition.init choice op v rv).raw_value = rv)) := by
  refine ⟨⟨rfl, by simp [Condition.init]⟩, ?_⟩
  intro h
  exact ⟨rfl, by simp [Condition.init, h]⟩

/-- Witness for C8 at concrete values. -/
theorem condition_init_raw_value_default_witness :
    ((Condition.init statusChoice isOperator (PyVal.str "open")
        PyVal.none).raw_value = PyVal.str "open") ∧
    ((Condition.init statusChoice isOperator (PyVal.str "open")
        (PyVal.str "raw")).raw_value = PyVal.str "raw") :=
  ⟨(condition_init_raw_value_default statusChoice isOperator
      (PyVal.str "open") (PyVal.str "raw")).1.2,
   ((condition_init_raw_value_default statusChoice isOperator
      (PyVal.str "open") (PyVal.str "raw")).2 (by decide)).2⟩

/-- Claim C10: the `try` block in `Condition.deserialize` covers both the
`data["value"]` lookup and the `deserialize_value` call, so a `KeyError`
raised by the value field's own deserializer — even though the `"value"` key
is present — is caught by the same handler as a missing key and reported as
`InvalidValue` with message "A value is required." carrying
`condition_index`. -/
theorem condition_deserialize_value_keyerror (choices : Choices)
    (data : CondData) (idx : Option Nat) (cid opid : String) (choice : Choice)
    (op : Operator) (vf : ValueField) (raw : PyVal)
    (hcid : data.choice = Option.some cid) (hopid : data.op = Option.some opid)
    (hchoice : choices.get_choice cid = Except.ok choice)
    (hop : choice.get_operator opid = Except.ok op)
    (hvf : op.value_field = Option.some vf)
    (hraw : data.value = Option.some raw)
    (hkey : vf.deserialize_value raw = Except.error ConditionError.keyError) :
    Condition.deserialize choices data idx =
      Except.error (ConditionError.invalidValue "A value is required."
        idx) := by
  simp [Condition.deserialize, hcid, hopid, hchoice, hop, hvf, hraw, hkey]

/-- Witness for C10: the "key-error-op" operator's field raises `KeyError`
on the present value, reported as a missing value. -/
theorem condition_deserialize_value_keyerror_witness :
    Condition.deserialize demoChoices
      ⟨Option.some "status", Option.some "key-error-op",
        Option.some (PyVal.str "present")⟩ (Option.some 4) =
      Except.error (ConditionError.invalidValue "A value is required."
        (Option.some 4)) :=
  condition_deserialize_value_keyerror demoChoices
    ⟨Option.some "status", Option.some "key-error-op",
      Option.some (PyVal.str "present")⟩ (Option.some 4)
    "status" "key-error-op" statusChoice keyErrorOperator keyErrorValueField
    (PyVal.str "present") rfl rfl rfl rfl rfl rfl rfl

/-- Deserializing the serialization of one validly constructed condition
succeeds and preserves the choice, the operator and the value. -/
theorem condition_deserialize_serialize (choices : Choices) (c : Condition)
    (h : Condition.roundTripOk choices c) (idx : Option Nat) :
    ∃ c2, Condition.deserialize choices (Condition.serialize c) idx =
        Except.ok c2 ∧
      c2.choice = c.choice ∧ c2.operator = c.operator ∧ c2.value = c.value := by
  obtain ⟨h1, h2, h3⟩ := h
  cases hvf : c.operator.value_field with
  | none =>
      simp only [hvf] at h3
      refine ⟨Condition.mk c.choice c.operator PyVal.none PyVal.none,
        ?_, rfl, rfl, h3.symm⟩
      simp [Condition.deserialize, Condition.serialize, h1, h2, hvf,
        Condition.init]
  | some vf =>
      simp only [hvf] at h3
      refine ⟨Condition.init c.choice c.operator c.value
        (if c.value = PyVal.none then PyVal.none
         else vf.serialize_value c.value), ?_, rfl, rfl, rfl⟩
      simp [Condition.deserialize, Condition.serialize, h1, h2, hvf, h3]

/-- Deserializing the serializations of a list of validly constructed
conditions succeeds and preserves choice id, operator id and value pairwise
in order. -/
theorem deserializeConditions_serialize (choices : Choices)
    (l : List Condition) (h : ∀ c ∈ l, Condition.roundTripOk choices c) :
    ∀ i, ∃ l2, deserializeConditions choices (l.map Condition.serialize) i =
        Except.ok l2 ∧
      List.Forall₂ (fun c c2 => c2.choice.choice_id = c.choice.choice_id ∧
        c2.operator.operator_id = c.operator.operator_id ∧
        c2.value = c.value) l l2 := by
  induction l with
  | nil =>
      intro i
      exact ⟨[], rfl, List.Forall₂.nil⟩
  | cons c rest ih =>
      intro i
      obtain ⟨c2, hc2, hch, hop, hv⟩ :=
        condition_deserialize_serialize choices c (h c (by simp))
          (Option.some i)
      obtain ⟨l2, hl2, hf⟩ :=
        ih (fun x hx => h x (by simp [hx])) (i + 1)
      refine ⟨c2 :: l2, ?_,
        List.Forall₂.cons ⟨by rw [hch], by rw [hop], hv⟩ hf⟩
      simp [deserializeConditions, hc2, hl2]

/-- Claim C2: for every validly constructed `ConditionSet` (valid mode;
every condition resolvable against the registry with a value field that
round-trips its value), deserializing the result of `serialize()` against
the same choice registry succeeds and yields a set with equal mode and a
pairwise-equal list of conditions — same choice id, operator id and value
for each condition, in the same order. -/
theorem conditionSet_serialize_roundtrip (choices : Choices)
    (cs : ConditionSet)
    (hmode : cs.mode = ConditionSet.MODE_ALL ∨
      cs.mode = ConditionSet.MODE_ANY)
    (hconds : ∀ c ∈ cs.conditions, Condition.roundTripOk choices c) :
    ∃ cs2, ConditionSet.deserialize choices (ConditionSet.serialize cs) =
        Except.ok cs2 ∧
      cs2.mode = cs.mode ∧
      List.Forall₂ (fun c c2 => c2.choice.choice_id = c.choice.choice_id ∧
        c2.operator.operator_id = c.operator.operator_id ∧
        c2.value = c.value) cs.conditions cs2.conditions := by
  obtain ⟨l2, hl2, hf⟩ :=
    deserializeConditions_serialize choices cs.conditions hconds 0
  refine ⟨⟨cs.mode, l2⟩, ?_, rfl, hf⟩
  rcases hmode with h | h <;>
    simp [ConditionSet.deserialize, ConditionSet.serialize, hl2,
      ConditionSet.init, h]

/-- Witness for C2: a one-condition "all" set over the demo registry
round-trips. -/
theorem conditionSet_serialize_roundtrip_witness :
    ∃ cs2, ConditionSet.deserialize demoChoices
        (ConditionSet.serialize (ConditionSet.mk "all" [demoCondition])) =
        Except.ok cs2 ∧
      cs2.mode = "all" ∧
      List.Forall₂ (fun c c2 => c2.choice.choice_id = c.choice.choice_id ∧
        c2.operator.operator_id = c.operator.operator_id ∧
        c2.value = c.value) [demoCondition] cs2.conditions :=
  conditionSet_serialize_roundtrip demoChoices
    (ConditionSet.mk "all" [demoCondition]) (Or.inl rfl)
    (fun c hc => by
      rw [List.mem_singleton] at hc
      subst hc
      exact ⟨rfl, rfl, rfl⟩)

/-- Under the collaborator contracts, every error raised by
`Condition.deserialize` is one of the three condition-level kinds and
carries the `condition_index` it was called with. -/
theorem condition_deserialize_error_info (choices : Choices)
    (hc : Choices.contractOk choices) (d : CondData) (idx : Option Nat)
    (e : ConditionError)
    (h : Condition.deserialize choices d idx = Except.error e) :
    e.conditionIndex = idx ∧
    (e.isChoiceNotFound = true ∨ e.isOperatorNotFound = true ∨
     e.isInvalidValue = true) := by
  obtain ⟨hreg, hch⟩ := hc
  unfold Condition.deserialize at h
  cases hdc : d.choice with
  | none =>
      simp only [hdc, Except.error.injEq] at h
      subst h
      exact ⟨rfl, Or.inl rfl⟩
  | some cid =>
  simp only [hdc] at h
  cases hdo : d.op with
  | none =>
      simp only [hdo, Except.error.injEq] at h
      subst h
      exact ⟨rfl, Or.inr (Or.inl rfl)⟩
  | some opid =>
  simp only [hdo] at h
  cases hg : choices.get_choice cid with
  | error e1 =>
      have hk := hreg cid e1 hg
      cases e1 <;> simp [ConditionError.isChoiceNotFound] at hk
      simp only [hg, Except.error.injEq] at h
      subst h
      exact ⟨rfl, Or.inl rfl⟩
  | ok choice =>
  simp only [hg] at h
  cases ho : choice.get_operator opid with
  | error e2 =>
      have hk := (hch cid choice hg).1 opid e2 ho
      cases e2 <;> simp [ConditionError.isOperatorNotFound] at hk
      simp only [ho, Except.error.injEq] at h
      subst h
      exact ⟨rfl, Or.inr (Or.inl rfl)⟩
  | ok op =>
  simp only [ho] at h
  cases hvf : op.value_field with
  | none =>
      simp only [hvf] at h
      exact absurd h (by simp)
  | some vf =>
  simp only [hvf] at h
  cases hdv : d.value with
  | none =>
      simp only [hdv, Except.error.injEq] at h
      subst h
      exact ⟨rfl, Or.inr (Or.inr rfl)⟩
  | some raw =>
  simp only [hdv] at h
  cases hres : vf.deserialize_value raw with
  | ok v =>
      simp only [hres] at h
      exact absurd h (by simp)
  | error e3 =>
      have hk := (hch cid choice hg).2 opid op ho vf hvf raw e3 hres
      rcases hk with hk | hk
      · subst hk
        simp only [hres, Except.error.injEq] at h
        subst h
        exact ⟨rfl, Or.inr (Or.inr rfl)⟩
      · cases e3 <;> simp [ConditionError.isInvalidValue] at hk
        simp only [hres, Except.error.injEq] at h
        subst h
        exact ⟨rfl, Or.inr (Or.inr rfl)⟩

/-- Under the contracts, `deserializeConditions` fails only with one of the
three condition-level error kinds. -/
theorem deserializeConditions_error_kind (choices : Choices)
    (hc : Choices.contractOk choices) :
    ∀ (l : List CondData) (i : Nat) (e : ConditionError),
      deserializeConditions choices l i = Except.error e →
      (e.isChoiceNotFound = true ∨ e.isOperatorNotFound = true ∨
       e.isInvalidValue = true) := by
  intro l
  induction l with
  | nil =>
      intro i e h
      simp [deserializeConditions] at h
  | cons d rest ih =>
      intro i e h
      unfold deserializeConditions at h
      cases hd : Condition.deserialize choices d (Option.some i) with
      | error e1 =>
          simp only [hd, Except.error.injEq] at h
          subst h
          exact (condition_deserialize_error_info choices hc d
            (Option.some i) e1 hd).2
      | ok c =>
          simp only [hd] at h
          cases hr : deserializeConditions choices rest (i + 1) with
          | error e2 =>
              simp only [hr, Except.error.injEq] at h
              subst h
              exact ih (i + 1) e2 hr
          | ok cs =>
              simp only [hr] at h
              exact absurd h (by simp)

/-- An error of one of the three condition-level kinds is not
`InvalidMode`. -/
theorem error_kind_not_invalidMode (e : ConditionError)
    (h : e.isChoiceNotFound = true ∨ e.isOperatorNotFound = true ∨
      e.isInvalidValue = true) :
    e.isInvalidMode = false := by
  cases e <;> simp_all [ConditionError.isChoiceNotFound,
    ConditionError.isOperatorNotFound, ConditionError.isInvalidValue,
    ConditionError.isInvalidMode]

/-- If every element of a payload list before position `i` deserializes and
the element at `i` fails, `deserializeConditions` (started at base index
`i0`) returns exactly that failure, regardless of the elements after `i`. -/
theorem deserializeConditions_error_at (choices : Choices) :
    ∀ (l : List CondData) (i0 i : Nat) (d : CondData) (e : ConditionError),
      l.get? i = Option.some d →
      (∀ j, j < i → ∀ dj, l.get? j = Option.some dj →
        ∃ c, Condition.deserialize choices dj (Option.some (i0 + j)) =
          Except.ok c) →
      Condition.deserialize choices d (Option.some (i0 + i)) =
        Except.error e →
      deserializeConditions choices l i0 = Except.error e := by
  intro l
  induction l with
  | nil =>
      intro i0 i d e hget _ _
      simp at hget
  | cons d0 rest ih =>
      intro i0 i d e hget hprev hfail
      cases i with
      | zero =>
          simp only [List.get?_cons_zero, Option.some.injEq] at hget
          subst hget
          rw [Nat.add_zero] at hfail
          simp [deserializeConditions, hfail]
      | succ j =>
          obtain ⟨c0, hc0⟩ := by
            have hx := hprev 0 (Nat.succ_pos j) d0 (by simp)
            rw [Nat.add_zero] at hx
            exact hx
          have hrec : deserializeConditions choices rest (i0 + 1) =
              Except.error e := by
            apply ih (i0 + 1) j d e (by simpa using hget)
            · intro k hk dk hdk
              have hx := hprev (k + 1) (Nat.succ_lt_succ hk) dk
                (by simpa using hdk)
              rw [show i0 + (k + 1) = i0 + 1 + k from by omega] at hx
              exact hx
            · rw [show i0 + 1 + j = i0 + (j + 1) from by omega]
              exact hfail
          simp [deserializeConditions, hc0, hrec]

/-- Claim C5: the first condition element of the payload list that fails to
deserialize aborts `ConditionSet.deserialize` immediately — the whole call
returns that error, independently of the elements after it, and the error's
`condition_index` equals the zero-based position of the failing element. -/
theorem conditionSet_deserialize_first_failure (choices : Choices)
    (hc : Choices.contractOk choices) (data : CondSetData) (m : String)
    (l : List CondData) (i : Nat) (d : CondData) (e : ConditionError)
    (hm : data.mode = Option.some m)
    (hmv : m = ConditionSet.MODE_ALL ∨ m = ConditionSet.MODE_ANY)
    (hl : data.conditions.getD [] = l)
    (hd : l.get? i = Option.some d)
    (hprev : ∀ j, j < i → ∀ dj, l.get? j = Option.some dj →
      ∃ c, Condition.deserialize choices dj (Option.some j) = Except.ok c)
    (hfail : Condition.deserialize choices d (Option.some i) =
      Except.error e) :
    ConditionSet.deserialize choices data = Except.error e ∧
    e.conditionIndex = Option.some i := by
  have herr : deserializeConditions choices l 0 = Except.error e := by
    apply deserializeConditions_error_at choices l 0 i d e hd
    · intro j hj dj hdj
      simpa using hprev j hj dj hdj
    · simpa using hfail
  refine ⟨?_, (condition_deserialize_error_info choices hc d
    (Option.some i) e hfail).1⟩
  rcases hmv with h | h <;>
    simp [ConditionSet.deserialize, hm, h, hl, herr]

/-- The demo registry satisfies the collaborator contracts. -/
theorem demoChoices_contractOk : Choices.contractOk demoChoices := by
  refine ⟨?_, ?_⟩
  · intro s e h
    by_cases hs : s = "status"
    · simp [demoChoices, hs] at h
    · simp [demoChoices, hs] at h
      subst h
      rfl
  · intro s c h
    by_cases hs : s = "status"
    · simp [demoChoices, hs] at h
      subst h
      refine ⟨?_, ?_⟩
      · intro t e ht
        by_cases h1 : t = "is"
        · simp [statusChoice, h1] at ht
        · by_cases h2 : t = "is-empty"
          · simp [statusChoice, h1, h2] at ht
          · by_cases h3 : t = "key-error-op"
            · simp [statusChoice, h1, h2, h3] at ht
            · simp [statusChoice, h1, h2, h3] at ht
              subst ht
              rfl
      · intro t op ht vf hvf r e hr
        have hop : op = isOperator ∨ op = isEmptyOperator ∨
            op = keyErrorOperator := by
          by_cases h1 : t = "is"
          · simp [statusChoice, h1] at ht
            exact Or.inl ht.symm
          · by_cases h2 : t = "is-empty"
            · simp [statusChoice, h1, h2] at ht
              exact Or.inr (Or.inl ht.symm)
            · by_cases h3 : t = "key-error-op"
              · simp [statusChoice, h1, h2, h3] at ht
                exact Or.inr (Or.inr ht.symm)
              · simp [statusChoice, h1, h2, h3] at ht
        rcases hop with rfl | rfl | rfl
        · simp [isOperator] at hvf
          subst hvf
          by_cases hr2 : r = PyVal.str "open" ∨ r = PyVal.str "closed"
          · simp [statusValueField, hr2] at hr
          · simp [statusValueField, hr2] at hr
            subst hr
            exact Or.inr rfl
        · simp [isEmptyOperator] at hvf
        · simp [keyErrorOperator] at hvf
          subst hvf
          simp [keyErrorValueField] at hr
          subst hr
          exact Or.inl rfl
    · simp [demoChoices, hs] at h

/-- Witness for C5: in a set of three conditions where the second is
malformed (a value the enum field rejects), deserialization fails with that
error, whose `condition_index` is 1. -/
theorem conditionSet_deserialize_first_failure_witness :
    ConditionSet.deserialize demoChoices
      ⟨Option.some "all", Option.some
        [⟨Option.some "status", Option.some "is",
           Option.some (PyVal.str "open")⟩,
         ⟨Option.some "status", Option.some "is",
           Option.some (PyVal.str "bogus")⟩,
         ⟨Option.some "status", Option.some "is",
           Option.some (PyVal.str "closed")⟩]⟩ =
      Except.error (ConditionError.invalidValue "Invalid enum value."
        (Option.some 1)) ∧
    (ConditionError.invalidValue "Invalid enum value."
      (Option.some 1)).conditionIndex = Option.some 1 :=
  conditionSet_deserialize_first_failure demoChoices demoChoices_contractOk
    ⟨Option.some "all", Option.some
      [⟨Option.some "status", Option.some "is",
         Option.some (PyVal.str "open")⟩,
       ⟨Option.some "status", Option.some "is",
         Option.some (PyVal.str "bogus")⟩,
       ⟨Option.some "status", Option.some "is",
         Option.some (PyVal.str "closed")⟩]⟩
    "all"
    [⟨Option.some "status", Option.some "is",
       Option.some (PyVal.str "open")⟩,
     ⟨Option.some "status", Option.some "is",
       Option.some (PyVal.str "bogus")⟩,
     ⟨Option.some "status", Option.some "is",
       Option.some (PyVal.str "closed")⟩]
    1
    ⟨Option.some "status", Option.some "is",
      Option.some (PyVal.str "bogus")⟩
    (ConditionError.invalidValue "Invalid enum value." (Option.some 1))
    rfl (Or.inl rfl) rfl rfl
    (fun j hj dj hdj => by
      have hj0 : j = 0 := by omega
      subst hj0
      simp only [List.get?_cons_zero, Option.some.injEq] at hdj
      subst hdj
      exact ⟨Condition.init statusChoice isOperator (PyVal.str "open")
        (PyVal.str "open"), rfl⟩)
    rfl

/-- Claim C6: for every mode that is neither "all" nor "any", both direct
construction and deserialization fail with `InvalidMode`, the message naming
the offending value; an absent `"mode"` key during deserialization yields
the message naming the string "None"; with a valid mode, construction
succeeds and (under the collaborator contracts) deserialization never fails
with `InvalidMode`. -/
theorem conditionSet_invalid_mode_paths (choices : Choices)
    (hc : Choices.contractOk choices) (m : String)
    (conds : List Condition) (data : CondSetData) :
    (¬(m = ConditionSet.MODE_ALL ∨ m = ConditionSet.MODE_ANY) →
      (ConditionSet.init m conds =
        Except.error (ConditionError.invalidMode (modeErrorMessage m)) ∧
       (data.mode = Option.some m →
        ConditionSet.deserialize choices data =
          Except.error (ConditionError.invalidMode (modeErrorMessage m))))) ∧
    (data.mode = Option.none →
      ConditionSet.deserialize choices data =
        Except.error (ConditionError.invalidMode
          (modeErrorMessage "None"))) ∧
    ((m = ConditionSet.MODE_ALL ∨ m = ConditionSet.MODE_ANY) →
      (ConditionSet.init m conds = Except.ok (ConditionSet.mk m conds) ∧
       (data.mode = Option.some m →
        ∀ e, ConditionSet.deserialize choices data = Except.error e →
          e.isInvalidMode = false))) := by
  refine ⟨?_, ?_, ?_⟩
  · intro hbad
    refine ⟨?_, ?_⟩
    · simp [ConditionSet.init, hbad]
    · intro hm
      simp [ConditionSet.deserialize, hm, hbad]
  · intro hm
    simp [ConditionSet.deserialize, hm]
  · intro hgood
    refine ⟨?_, ?_⟩
    · simp [ConditionSet.init, hgood]
    · intro hm e h
      unfold ConditionSet.deserialize at h
      simp only [hm] at h
      rw [if_pos hgood] at h
      cases hr : deserializeConditions choices (data.conditions.getD []) 0 with
      | error e2 =>
          simp only [hr, Except.error.injEq] at h
          rw [← h]
          exact error_kind_not_invalidMode e2
            (deserializeConditions_error_kind choices hc
              (data.conditions.getD []) 0 e2 hr)
      | ok conds2 =>
          simp only [hr] at h
          rw [show ConditionSet.init m conds2 =
            Except.ok (ConditionSet.mk m conds2) from by
              simp [ConditionSet.init, hgood]] at h
          exact absurd h (by simp)

/-- Witness for C6: mode "sometimes" fails both paths with the value in the
message; the absent key names "None"; mode "all" succeeds. -/
theorem conditionSet_invalid_mode_paths_witness :
    (ConditionSet.init "sometimes" [] =
      Except.error (ConditionError.invalidMode
        "\"sometimes\" is not a valid condition mode.") ∧
     ConditionSet.deserialize demoChoices
       ⟨Option.some "sometimes", Option.none⟩ =
      Except.error (ConditionError.invalidMode
        "\"sometimes\" is not a valid condition mode.")) ∧
    (ConditionSet.deserialize demoChoices ⟨Option.none, Option.none⟩ =
      Except.error (ConditionError.invalidMode
        "\"None\" is not a valid condition mode.")) ∧
    (ConditionSet.init "all" [] = Except.ok (ConditionSet.mk "all" [])) :=
  ⟨⟨((conditionSet_invalid_mode_paths demoChoices demoChoices_contractOk
      "sometimes" [] ⟨Option.some "sometimes", Option.none⟩).1
      (by decide)).1,
    ((conditionSet_invalid_mode_paths demoChoices demoChoices_contractOk
      "sometimes" [] ⟨Option.some "sometimes", Option.none⟩).1
      (by decide)).2 rfl⟩,
   (conditionSet_invalid_mode_paths demoChoices demoChoices_contractOk
      "sometimes" [] ⟨Option.none, Option.none⟩).2.1 rfl,
   ((conditionSet_invalid_mode_paths demoChoices demoChoices_contractOk
      "all" [] ⟨Option.some "all", Option.none⟩).2.2 (Or.inl rfl)).1⟩

/-- Claim C9 fails on the code: `ConditionSet.__init__(self, mode=MODE_ALL,
conditions=[])` uses a mutable default argument, so the default empty list
is allocated once and every construction that omits `conditions` stores the
same list object. Two such sets `a` and `b` both read back an empty list,
but after a caller appends one condition through `a.conditions`,
`b.conditions` reads back that same one-element list — where the claim
requires it to stay empty. -/
theorem conditionSet_default_conditions_shared (h0 : ListHeap) (c : Condition)
    (a b : ConditionSetObj)
    (ha : ConditionSet.initDefault (ListHeap.alloc h0 []).2 "all" =
      Except.ok a)
    (hb : ConditionSet.initDefault (ListHeap.alloc h0 []).2 "any" =
      Except.ok b) :
    ListHeap.read (ListHeap.alloc h0 []).1 a.conditionsRef = [] ∧
    ListHeap.read (ListHeap.alloc h0 []).1 b.conditionsRef = [] ∧
    ListHeap.read
      (ListHeap.append (ListHeap.alloc h0 []).1 a.conditionsRef c)
      b.conditionsRef = [c] := by
  have ha2 : a = ConditionSetObj.mk "all" h0.next :=
    (Except.ok.inj ha).symm
  have hb2 : b = ConditionSetObj.mk "any" h0.next :=
    (Except.ok.inj hb).symm
  subst ha2
  subst hb2
  refine ⟨?_, ?_, ?_⟩ <;>
    simp [ListHeap.read, ListHeap.alloc, ListHeap.append]

/-- Witness for C9's divergence theorem at a concrete empty heap and the
demo condition. -/
theorem conditionSet_default_conditions_shared_witness :
    ListHeap.read
      (ListHeap.append (ListHeap.alloc (ListHeap.mk (fun _ => []) 0) []).1
        0 demoCondition) 0 = [demoCondition] :=
  (conditionSet_default_conditions_shared (ListHeap.mk (fun _ => []) 0)
    demoCondition (ConditionSetObj.mk "all" 0) (ConditionSetObj.mk "any" 0)
    rfl rfl).2.2
